import Mathlib

/-!
Shallow embedding of the rolling-window trade aggregator of
`bitstamp-pybot` (`src/recent_trades.py`, class `RecentTrades`), together
with proofs checking the natural-language specification against it.

Modelling conventions:
* Python numbers (trade timestamps, amounts, prices, lifetimes) are
  modelled as exact rationals `ℚ`; `int(x)` is truncation toward zero.
* The insertion-ordered Python `dict` holding the trackers is modelled as
  an association list `List (String × Tracker)`; dictionary assignment
  replaces the value of the first matching key in place (preserving
  position, as CPython dicts do) and appends otherwise.
* Operations that can raise (`KeyError` on an unknown tracker name,
  `ZeroDivisionError` in `run_calculations`) return `Option`/`Except`.
* One iteration of the infinite cleanup loop body of `remove_old_trades`
  (the part between two sleeps) is modelled as a pure state transformer
  taking the current time as a parameter.
-/

/-- A trade record as consumed by `store_trade`: the fields of the JSON
trade object that the class reads (`timestamp`, `amount`, `price`,
`price_str`). -/
structure Trade where
  timestamp : ℚ
  amount : ℚ
  price : ℚ
  price_str : String
deriving DecidableEq, Repr

/-- One tracker entry, the inner dict built by `add_tracker`:
`{'lifetime': ..., 'trades': [], 'volume': 0.0, 'price_volume': 0.0,
'average_price': 0.0}`. -/
structure Tracker where
  lifetime : ℚ
  trades : List Trade
  volume : ℚ
  price_volume : ℚ
  average_price : ℚ
deriving DecidableEq, Repr

/-- The state of a `RecentTrades` instance: fields set in `__init__`. -/
structure RecentTrades where
  new_trade : Bool
  initial_value : Bool
  price_string : String
  recent_trades : List (String × Tracker)
deriving DecidableEq, Repr

/-- Python `int(q)` for a rational `q`: truncation toward zero
(`Int.tdiv` is T-division on the reduced numerator and denominator). -/
def pyInt (q : ℚ) : ℤ :=
  q.num.tdiv q.den

/-- Lookup in the insertion-ordered dict: first entry with the key. -/
def dictGet : List (String × Tracker) → String → Option Tracker
  | [], _ => none
  | (k, v) :: rest, name => if k = name then some v else dictGet rest name

/-- Assignment `d[name] = v` on the insertion-ordered dict: replaces the
value at the first occurrence of the key in place, otherwise appends. -/
def dictSet : List (String × Tracker) → String → Tracker → List (String × Tracker)
  | [], name, v => [(name, v)]
  | (k, w) :: rest, name, v =>
    if k = name then (name, v) :: rest else (k, w) :: dictSet rest name v

/-- `__init__` (minus the thread start, which is modelled by explicit
`remove_old_trades_pass` applications): `new_trade = False`,
`initial_value = False`, `price_string = '0'`, `recent_trades = {}`. -/
def init : RecentTrades :=
  { new_trade := false
    initial_value := false
    price_string := "0"
    recent_trades := [] }

/-- `add_tracker(name, lifetime)`: unconditional dict assignment of a
fresh tracker with empty trades and zeroed aggregates (the Python float
`0.0` is the rational `0`). -/
def add_tracker (rt : RecentTrades) (name : String) (lifetime : ℚ) : RecentTrades :=
  { rt with
    recent_trades :=
      dictSet rt.recent_trades name
        { lifetime := lifetime
          trades := []
          volume := 0
          price_volume := 0
          average_price := 0 } }

/-- `price()`: the stored price string of the most recent trade. -/
def price (rt : RecentTrades) : String :=
  rt.price_string

/-- `lifetime(tracker)`: reads `recent_trades[tracker]['lifetime']`;
`none` models the `KeyError` raised on an unknown name. -/
def lifetime_get (rt : RecentTrades) (tracker : String) : Option ℚ :=
  (dictGet rt.recent_trades tracker).map Tracker.lifetime

/-- `trackers()`: the list of keys in insertion order. -/
def trackers (rt : RecentTrades) : List String :=
  rt.recent_trades.map Prod.fst

/-- `trades(tracker)` in its read mode (`trades=None`). -/
def trades_get (rt : RecentTrades) (tracker : String) : Option (List Trade) :=
  (dictGet rt.recent_trades tracker).map Tracker.trades

/-- `trades(tracker, trades)` in its overwrite mode (`append=False`). -/
def trades_set (rt : RecentTrades) (tracker : String) (l : List Trade) :
    Option RecentTrades :=
  match dictGet rt.recent_trades tracker with
  | none => none
  | some w =>
    some { rt with recent_trades := dictSet rt.recent_trades tracker { w with trades := l } }

/-- `trades(tracker, trade, True)` in its append mode. -/
def trades_append (rt : RecentTrades) (tracker : String) (t : Trade) :
    Option RecentTrades :=
  match dictGet rt.recent_trades tracker with
  | none => none
  | some w =>
    some { rt with
      recent_trades := dictSet rt.recent_trades tracker { w with trades := w.trades ++ [t] } }

/-- `volume(tracker)` in its read mode. -/
def volume_get (rt : RecentTrades) (tracker : String) : Option ℚ :=
  (dictGet rt.recent_trades tracker).map Tracker.volume

/-- `volume(tracker, v)` in its write mode. -/
def volume_set (rt : RecentTrades) (tracker : String) (v : ℚ) : Option RecentTrades :=
  match dictGet rt.recent_trades tracker with
  | none => none
  | some w =>
    some { rt with recent_trades := dictSet rt.recent_trades tracker { w with volume := v } }

/-- `price_volume(tracker)` in its read mode. -/
def price_volume_get (rt : RecentTrades) (tracker : String) : Option ℚ :=
  (dictGet rt.recent_trades tracker).map Tracker.price_volume

/-- `price_volume(tracker, v)` in its write mode. -/
def price_volume_set (rt : RecentTrades) (tracker : String) (v : ℚ) :
    Option RecentTrades :=
  match dictGet rt.recent_trades tracker with
  | none => none
  | some w =>
    some { rt with
      recent_trades := dictSet rt.recent_trades tracker { w with price_volume := v } }

/-- `average_price(tracker)` in its read mode. -/
def average_price_get (rt : RecentTrades) (tracker : String) : Option ℚ :=
  (dictGet rt.recent_trades tracker).map Tracker.average_price

/-- `average_price(tracker, p)` in its write mode. -/
def average_price_set (rt : RecentTrades) (tracker : String) (p : ℚ) :
    Option RecentTrades :=
  match dictGet rt.recent_trades tracker with
  | none => none
  | some w =>
    some { rt with
      recent_trades := dictSet rt.recent_trades tracker { w with average_price := p } }

/-- Per-tracker body of the cleanup loop: keep the trades satisfying
`int(trade['timestamp']) > cur_time - lifetime`. -/
def expireTracker (cur_time : ℚ) (w : Tracker) : Tracker :=
  { w with
    trades := w.trades.filter (fun t => decide ((pyInt t.timestamp : ℚ) > cur_time - w.lifetime)) }

/-- One iteration of the `while True` body of `remove_old_trades` at time
`cur_time`: every tracker's trade list is filtered by its own lifetime,
and `new_trade` is set to `True` when any tracker's list shrank
(`if len(...) < num_trades: self.new_trade = True`). -/
def remove_old_trades_pass (rt : RecentTrades) (cur_time : ℚ) : RecentTrades :=
  { rt with
    recent_trades := rt.recent_trades.map (fun p => (p.1, expireTracker cur_time p.2))
    new_trade :=
      rt.new_trade ||
        rt.recent_trades.any
          (fun p => (expireTracker cur_time p.2).trades.length < p.2.trades.length) }

/-- Per-tracker body of `run_calculations`: the three running sums and the
count, then `temp_avg_price /= temp_avg_count`, which raises
`ZeroDivisionError` when the tracker has no trades. -/
def calcTracker (w : Tracker) : Except String Tracker :=
  let temp_volume : ℚ := w.trades.foldl (fun a t => a + t.amount) 0
  let temp_price_vol : ℚ := w.trades.foldl (fun a t => a + t.amount * t.price) 0
  let temp_avg_price : ℚ := w.trades.foldl (fun a t => a + t.price) 0
  let temp_avg_count : ℕ := w.trades.length
  if temp_avg_count = 0 then Except.error "ZeroDivisionError"
  else
    Except.ok
      { w with
        volume := temp_volume
        price_volume := temp_price_vol
        average_price := temp_avg_price / (temp_avg_count : ℚ) }

/-- Sequentially recompute every tracker, stopping at the first
`ZeroDivisionError` (as the Python loop does when it raises). -/
def runCalcList : List (String × Tracker) → Except String (List (String × Tracker))
  | [] => Except.ok []
  | (k, w) :: rest =>
    match calcTracker w with
    | Except.error e => Except.error e
    | Except.ok w2 =>
      match runCalcList rest with
      | Except.error e => Except.error e
      | Except.ok rest2 => Except.ok ((k, w2) :: rest2)

/-- `run_calculations()`: a no-op unless `new_trade` is set; otherwise
recomputes every tracker in order. `self.new_trade = False` runs at the
end of each tracker iteration, so with zero trackers the flag is left
untouched. -/
def run_calculations (rt : RecentTrades) : Except String RecentTrades :=
  if rt.new_trade then
    match runCalcList rt.recent_trades with
    | Except.error e => Except.error e
    | Except.ok l =>
      Except.ok
        { rt with
          recent_trades := l
          new_trade := if rt.recent_trades.isEmpty then rt.new_trade else false }
  else Except.ok rt

/-- `store_trade(trade)`: sets `initial_value` and `new_trade`, records
the price string, and appends the trade to every tracker's list. -/
def store_trade (rt : RecentTrades) (t : Trade) : RecentTrades :=
  { rt with
    initial_value := true
    new_trade := true
    price_string := t.price_str
    recent_trades := rt.recent_trades.map (fun p => (p.1, { p.2 with trades := p.2.trades ++ [t] })) }

/-! ## Helper lemmas -/

/-- On a nonnegative rational, Python truncation agrees with the floor. -/
lemma pyInt_eq_floor {q : ℚ} (h : 0 ≤ q) : pyInt q = ⌊q⌋ := by
  unfold pyInt
  rw [Int.tdiv_eq_ediv (Rat.num_nonneg.mpr h) (Int.natCast_nonneg q.den)]
  exact (Rat.floor_def).symm

/-- Truncation toward zero under-approximates a nonnegative rational. -/
lemma pyInt_le {q : ℚ} (h : 0 ≤ q) : (pyInt q : ℚ) ≤ q := by
  rw [pyInt_eq_floor h]
  exact Int.floor_le q

lemma dictGet_mem {l : List (String × Tracker)} {name : String} {w : Tracker}
    (h : dictGet l name = some w) : (name, w) ∈ l := by
  induction l with
  | nil => simp [dictGet] at h
  | cons p rest ih =>
    obtain ⟨k, v⟩ := p
    by_cases hk : k = name
    · subst hk
      simp [dictGet] at h
      simp [h]
    · simp [dictGet, hk] at h
      exact List.mem_cons_of_mem _ (ih h)

lemma dictGet_map (f : Tracker → Tracker) (l : List (String × Tracker)) (name : String) :
    dictGet (l.map (fun p => (p.1, f p.2))) name = (dictGet l name).map f := by
  induction l with
  | nil => simp [dictGet]
  | cons p rest ih =>
    obtain ⟨k, v⟩ := p
    by_cases hk : k = name
    · subst hk
      simp [dictGet]
    · simp [dictGet, hk, ih]

lemma foldl_add_eq_sum (f : Trade → ℚ) :
    ∀ (l : List Trade) (a : ℚ), l.foldl (fun a t => a + f t) a = a + (l.map f).sum := by
  intro l
  induction l with
  | nil => intro a; simp
  | cons t rest ih =>
    intro a
    simp [List.foldl_cons, ih, List.sum_cons]
    ring

/-- Unfolding of a successful per-tracker recomputation. -/
lemma calcTracker_ok {w : Tracker} (h : w.trades ≠ []) :
    calcTracker w =
      Except.ok
        { w with
          volume := (w.trades.map Trade.amount).sum
          price_volume := (w.trades.map (fun t => t.amount * t.price)).sum
          average_price := (w.trades.map Trade.price).sum / (w.trades.length : ℚ) } := by
  unfold calcTracker
  have hlen : w.trades.length ≠ 0 := by simpa using h
  simp only [hlen, if_false, foldl_add_eq_sum, zero_add]

lemma calcTracker_error {w : Tracker} (h : w.trades = []) :
    calcTracker w = Except.error "ZeroDivisionError" := by
  unfold calcTracker
  simp [h]

lemma runCalcList_error_of_empty {l : List (String × Tracker)}
    (h : ∃ p ∈ l, p.2.trades = []) : ∃ e, runCalcList l = Except.error e := by
  induction l with
  | nil => simp at h
  | cons p rest ih =>
    obtain ⟨q, hq, hqe⟩ := h
    rcases List.mem_cons.mp hq with hhead | htail
    · subst hhead
      refine ⟨"ZeroDivisionError", ?_⟩
      simp [runCalcList, calcTracker_error hqe]
    · obtain ⟨e, he⟩ := ih ⟨q, htail, hqe⟩
      cases hw : calcTracker p.2 with
      | error e2 => exact ⟨e2, by simp [runCalcList, hw]⟩
      | ok w2 => exact ⟨e, by simp [runCalcList, hw, he]⟩

lemma runCalcList_ok_of_nonempty {l : List (String × Tracker)}
    (h : ∀ p ∈ l, p.2.trades ≠ []) : ∃ l2, runCalcList l = Except.ok l2 := by
  induction l with
  | nil => exact ⟨[], rfl⟩
  | cons p rest ih =>
    obtain ⟨rest2, hrest⟩ := ih (fun q hq => h q (List.mem_cons_of_mem _ hq))
    have hp := h p (List.mem_cons_self _ _)
    refine ⟨(p.1, ?_) :: rest2, ?_⟩
    · exact
        { p.2 with
          volume := (p.2.trades.map Trade.amount).sum
          price_volume := (p.2.trades.map (fun t => t.amount * t.price)).sum
          average_price := (p.2.trades.map Trade.price).sum / (p.2.trades.length : ℚ) }
    · simp [runCalcList, calcTracker_ok hp, hrest]

/-- A successful full recomputation recomputes each entry with
`calcTracker`, preserving keys and order. -/
lemma runCalcList_ok_lookup :
    ∀ {l l2 : List (String × Tracker)}, runCalcList l = Except.ok l2 →
      ∀ name w, dictGet l name = some w →
        ∃ w2, dictGet l2 name = some w2 ∧ calcTracker w = Except.ok w2 := by
  intro l
  induction l with
  | nil => intro l2 h name w hw; simp [dictGet] at hw
  | cons p rest ih =>
    intro l2 h name w hw
    obtain ⟨k, v⟩ := p
    cases hv : calcTracker v with
    | error e => simp [runCalcList, hv] at h
    | ok v2 =>
      cases hrest : runCalcList rest with
      | error e => simp [runCalcList, hv, hrest] at h
      | ok rest2 =>
        simp [runCalcList, hv, hrest] at h
        subst h
        by_cases hk : k = name
        · subst hk
          rw [show dictGet ((k, v) :: rest) k = some v by simp [dictGet]] at hw
          rw [Option.some_inj] at hw
          subst hw
          refine ⟨v2, ?_, hv⟩
          simp [dictGet]
        · simp [dictGet, hk] at hw ⊢
          exact ih hrest name w hw

lemma dictGet_dictSet_self (l : List (String × Tracker)) (name : String) (v : Tracker) :
    dictGet (dictSet l name v) name = some v := by
  induction l with
  | nil => simp [dictSet, dictGet]
  | cons p rest ih =>
    obtain ⟨k, w⟩ := p
    by_cases hk : k = name
    · subst hk
      simp [dictSet, dictGet]
    · simp [dictSet, dictGet, hk, ih]

lemma dictGet_dictSet_ne (l : List (String × Tracker)) {name k : String} (v : Tracker)
    (h : k ≠ name) : dictGet (dictSet l name v) k = dictGet l k := by
  induction l with
  | nil => simp [dictSet, dictGet, Ne.symm h]
  | cons p rest ih =>
    obtain ⟨k2, w⟩ := p
    by_cases hk : k2 = name
    · subst hk
      simp [dictSet, dictGet, h, Ne.symm h]
    · simp only [dictSet, if_neg hk]
      by_cases hk2 : k2 = k
      · subst hk2
        simp [dictGet]
      · simp [dictGet, hk2, ih]

lemma dictSet_keys_of_mem {l : List (String × Tracker)} {name : String} (v : Tracker)
    (h : name ∈ l.map Prod.fst) : (dictSet l name v).map Prod.fst = l.map Prod.fst := by
  induction l with
  | nil => simp at h
  | cons p rest ih =>
    obtain ⟨k, w⟩ := p
    by_cases hk : k = name
    · subst hk
      simp [dictSet]
    · have h2 : name ∈ rest.map Prod.fst := by
        simp only [List.map_cons, List.mem_cons] at h
        rcases h with h3 | h3
        · exact absurd h3 (fun he => hk he.symm)
        · exact h3
      simp [dictSet, hk, ih h2]

/-! ## Claim theorems -/

/-- Claim C1: the spec requires that recomputing a window with zero trades
succeeds and yields `average_price = 0.0`; the code instead reaches
`temp_avg_price /= temp_avg_count` with `temp_avg_count = 0` and raises a
`ZeroDivisionError`: whenever `new_trade` is set and some registered
tracker has an empty trade list, `run_calculations` fails. -/
theorem C1_empty_window_recompute_raises (rt : RecentTrades) (name : String)
    (h1 : rt.new_trade = true) (h2 : trades_get rt name = some []) :
    ∃ e, run_calculations rt = Except.error e := by
  obtain ⟨w, hw, hwt⟩ : ∃ w, dictGet rt.recent_trades name = some w ∧ w.trades = [] := by
    unfold trades_get at h2
    cases hg : dictGet rt.recent_trades name with
    | none => simp [hg] at h2
    | some w => exact ⟨w, rfl, by simpa [hg] using h2⟩
  obtain ⟨e, he⟩ := runCalcList_error_of_empty ⟨(name, w), dictGet_mem hw, hwt⟩
  exact ⟨e, by simp [run_calculations, h1, he]⟩

/-- Witness for C1: the spec's own end-to-end scenario 3 — one window
`"Test"` with retention 10, a trade at `t = 100`, an expiry pass at
`t = 111` — leaves the window empty with `new_trade` set, and the
following recompute raises instead of producing an all-zero aggregate. -/
theorem C1_empty_window_recompute_raises_witness :
    ∃ e,
      run_calculations
        (remove_old_trades_pass
          (store_trade (add_tracker init "Test" 10) ⟨100, 2, 5, "5.00"⟩) 111) =
        Except.error e := by
  apply C1_empty_window_recompute_raises _ "Test"
  · norm_num [remove_old_trades_pass, store_trade, add_tracker, init, dictSet]
  · norm_num [trades_get, remove_old_trades_pass, store_trade, add_tracker, init,
      dictSet, dictGet, expireTracker, pyInt, List.filter]

/-- Claim C2 as stated is false: the expiry filter keeps a trade iff
`int(timestamp) > now - lifetime`, so a trade whose age is exactly the
retention is removed even though `t - timestamp > R` fails. Concretely:
retention 10, trade at `t = 100`, expiry pass at `t = 110` removes the
trade although `110 - 100 > 10` does not hold. -/
theorem C2_expiry_counterexample :
    trades_get (store_trade (add_tracker init "W" 10) ⟨100, 1, 1, "1"⟩) "W"
        = some [⟨100, 1, 1, "1"⟩] ∧
    trades_get
        (remove_old_trades_pass
          (store_trade (add_tracker init "W" 10) ⟨100, 1, 1, "1"⟩) 110) "W" = some [] ∧
    ¬((110 : ℚ) - (100 : ℚ) > (10 : ℚ)) := by
  refine ⟨?_, ?_, by norm_num⟩
  · norm_num [trades_get, store_trade, add_tracker, init, dictSet, dictGet]
  · norm_num [trades_get, remove_old_trades_pass, store_trade, add_tracker, init,
      dictSet, dictGet, expireTracker, pyInt, List.filter]

/-- Claim C2, amended to the code's actual boundary: after an expiry pass
at time `t`, every remaining trade satisfies
`t - int(timestamp) < retention` (hence `t - timestamp < retention ≤
retention` for nonnegative timestamps), and every removed trade satisfies
`t - int(timestamp) ≥ retention`, where `int` is Python truncation toward
zero. -/
theorem C2_expiry_age_bounds (rt : RecentTrades) (t : ℚ) (name : String) (w : Tracker)
    (h : dictGet rt.recent_trades name = some w) :
    ∃ w2, dictGet (remove_old_trades_pass rt t).recent_trades name = some w2 ∧
      w2.lifetime = w.lifetime ∧
      (∀ tr ∈ w2.trades, t - (pyInt tr.timestamp : ℚ) < w.lifetime ∧
        (0 ≤ tr.timestamp → t - tr.timestamp < w.lifetime)) ∧
      (∀ tr ∈ w.trades, tr ∉ w2.trades → w.lifetime ≤ t - (pyInt tr.timestamp : ℚ)) := by
  refine ⟨expireTracker t w, ?_, rfl, ?_, ?_⟩
  · unfold remove_old_trades_pass
    simp [dictGet_map, h]
  · intro tr htr
    unfold expireTracker at htr
    rw [List.mem_filter] at htr
    have hcond : (pyInt tr.timestamp : ℚ) > t - w.lifetime := of_decide_eq_true htr.2
    refine ⟨by linarith, fun hts => ?_⟩
    have := pyInt_le hts
    linarith
  · intro tr htr hnot
    unfold expireTracker at hnot
    by_contra hlt
    push_neg at hlt
    exact hnot (List.mem_filter.mpr ⟨htr, decide_eq_true (by linarith)⟩)

/-- Witness for the amended C2: window `"W"` with retention 10, a trade at
`t = 100`, expiry pass at `t = 105`: the surviving window obeys both age
bounds. -/
theorem C2_expiry_age_bounds_witness :
    ∃ w2,
      dictGet
          (remove_old_trades_pass
            (store_trade (add_tracker init "W" 10) ⟨100, 1, 1, "1"⟩) 105).recent_trades
          "W" = some w2 ∧
      w2.lifetime = 10 ∧
      (∀ tr ∈ w2.trades, (105 : ℚ) - (pyInt tr.timestamp : ℚ) < 10 ∧
        (0 ≤ tr.timestamp → (105 : ℚ) - tr.timestamp < 10)) ∧
      (∀ tr ∈ [(⟨100, 1, 1, "1"⟩ : Trade)], tr ∉ w2.trades →
        (10 : ℚ) ≤ 105 - (pyInt tr.timestamp : ℚ)) :=
  C2_expiry_age_bounds
    (store_trade (add_tracker init "W" 10) ⟨100, 1, 1, "1"⟩) 105 "W"
    ⟨10, [⟨100, 1, 1, "1"⟩], 0, 0, 0⟩
    (by norm_num [store_trade, add_tracker, init, dictSet, dictGet])


/-- Claim C3 as stated is false: `add_tracker` on an already registered
name is a bare dict assignment — it neither fails nor is a no-op, and it
silently replaces the window with a fresh empty one, discarding the
accumulated trades (and installing the new retention) with no error and
no documented overwrite policy. -/
theorem C3_duplicate_counterexample :
    trades_get (store_trade (add_tracker init "A" 10) ⟨100, 1, 1, "1"⟩) "A"
        = some [⟨100, 1, 1, "1"⟩] ∧
    trades_get
        (add_tracker (store_trade (add_tracker init "A" 10) ⟨100, 1, 1, "1"⟩) "A" 20) "A"
        = some [] ∧
    lifetime_get
        (add_tracker (store_trade (add_tracker init "A" 10) ⟨100, 1, 1, "1"⟩) "A" 20) "A"
        = some 20 := by
  refine ⟨?_, ?_, ?_⟩ <;>
    norm_num [trades_get, lifetime_get, store_trade, add_tracker, init, dictSet, dictGet]

/-- Claim C3, amended to the code's behavior: a duplicate registration
deterministically overwrites the existing window in place — same key set
and insertion order, a fresh empty zeroed tracker with the new retention
under the duplicated name, every other window untouched — and never
creates a second independent tracker for the name. -/
theorem C3_duplicate_overwrites (rt : RecentTrades) (name : String) (R : ℚ)
    (h : name ∈ trackers rt) :
    trackers (add_tracker rt name R) = trackers rt ∧
    dictGet (add_tracker rt name R).recent_trades name =
      some { lifetime := R, trades := [], volume := 0, price_volume := 0, average_price := 0 } ∧
    ∀ k, k ≠ name →
      dictGet (add_tracker rt name R).recent_trades k = dictGet rt.recent_trades k := by
  refine ⟨?_, ?_, fun k hk => ?_⟩
  · exact dictSet_keys_of_mem _ h
  · exact dictGet_dictSet_self _ _ _
  · exact dictGet_dictSet_ne _ _ hk

/-- Witness for the amended C3 at a concrete duplicate registration. -/
theorem C3_duplicate_overwrites_witness :
    trackers (add_tracker (add_tracker init "A" 10) "A" 20) =
        trackers (add_tracker init "A" 10) ∧
    dictGet (add_tracker (add_tracker init "A" 10) "A" 20).recent_trades "A" =
      some { lifetime := 20, trades := [], volume := 0, price_volume := 0, average_price := 0 } ∧
    ∀ k, k ≠ "A" →
      dictGet (add_tracker (add_tracker init "A" 10) "A" 20).recent_trades k =
        dictGet (add_tracker init "A" 10).recent_trades k :=
  C3_duplicate_overwrites (add_tracker init "A" 10) "A" 20
    (by norm_num [trackers, add_tracker, init, dictSet])

/-- Claim C4: when an expiry pass shrinks the trade list of at least one
window, the `new_trade` flag is true immediately after the pass (the code
sets it under `if len(...) < num_trades`, and nothing in the pass clears
it). -/
theorem C4_shrink_sets_dirty (rt : RecentTrades) (t : ℚ)
    (h : ∃ p ∈ rt.recent_trades, (expireTracker t p.2).trades.length < p.2.trades.length) :
    (remove_old_trades_pass rt t).new_trade = true := by
  obtain ⟨p, hp, hlt⟩ := h
  unfold remove_old_trades_pass
  simp only [Bool.or_eq_true, List.any_eq_true]
  exact Or.inr ⟨p, hp, by simpa using hlt⟩

/-- Witness for C4: retention 10, one trade at `t = 100`, pass at
`t = 111` — the window shrinks and the dirty flag is set. -/
theorem C4_shrink_sets_dirty_witness :
    (remove_old_trades_pass
        (store_trade (add_tracker init "Test" 10) ⟨100, 2, 5, "5.00"⟩) 111).new_trade
      = true :=
  C4_shrink_sets_dirty _ 111
    ⟨("Test", ⟨10, [⟨100, 2, 5, "5.00"⟩], 0, 0, 0⟩),
      by norm_num [store_trade, add_tracker, init, dictSet],
      by norm_num [expireTracker, pyInt, List.filter]⟩

/-- Claim C5: when a recompute succeeds, each window's `volume` is the sum
of the amounts of its trades, its `price_volume` is the sum of
`amount * price`, and its `average_price` is the arithmetic mean of the
prices; the trade list and lifetime are untouched. -/
theorem C5_recompute_sums (rt rt2 : RecentTrades) (name : String) (w : Tracker)
    (h1 : rt.new_trade = true)
    (h2 : run_calculations rt = Except.ok rt2)
    (h3 : dictGet rt.recent_trades name = some w) :
    dictGet rt2.recent_trades name =
      some { w with
        volume := (w.trades.map Trade.amount).sum
        price_volume := (w.trades.map (fun t => t.amount * t.price)).sum
        average_price := (w.trades.map Trade.price).sum / (w.trades.length : ℚ) } := by
  unfold run_calculations at h2
  cases hrc : runCalcList rt.recent_trades with
  | error e => simp [h1, hrc] at h2
  | ok l2 =>
    simp only [h1, if_true, hrc] at h2
    obtain ⟨w2, hw2, hcalc⟩ := runCalcList_ok_lookup hrc name w h3
    have hne : w.trades ≠ [] := by
      intro he
      rw [calcTracker_error he] at hcalc
      exact Except.noConfusion hcalc
    rw [calcTracker_ok hne] at hcalc
    have hrt2 : rt2.recent_trades = l2 := by
      cases h2
      rfl
    rw [hrt2, hw2]
    exact congrArg some (Except.ok.inj hcalc).symm

/-- Witness for C5: the spec's end-to-end scenario 2 — trades
`{t=100, amount=1, price=10}` and `{t=100, amount=3, price=20}` in one
window; the recompute yields `volume = 4`, `price_volume = 70`,
`average_price = 15`. -/
theorem C5_recompute_sums_witness :
    dictGet
        (RecentTrades.mk false true "20"
          [("W", ⟨900, [⟨100, 1, 10, "10"⟩, ⟨100, 3, 20, "20"⟩], 4, 70, 15⟩)]).recent_trades
        "W" =
      some ⟨900, [⟨100, 1, 10, "10"⟩, ⟨100, 3, 20, "20"⟩], 4, 70, 15⟩ := by
  have h :=
    C5_recompute_sums
      (store_trade (store_trade (add_tracker init "W" 900) ⟨100, 1, 10, "10"⟩)
        ⟨100, 3, 20, "20"⟩)
      (RecentTrades.mk false true "20"
        [("W", ⟨900, [⟨100, 1, 10, "10"⟩, ⟨100, 3, 20, "20"⟩], 4, 70, 15⟩)])
      "W" ⟨900, [⟨100, 1, 10, "10"⟩, ⟨100, 3, 20, "20"⟩], 0, 0, 0⟩
      (by norm_num [store_trade, add_tracker, init, dictSet])
      (by norm_num [run_calculations, runCalcList, calcTracker, store_trade, add_tracker,
        init, dictSet, List.foldl])
      (by norm_num [store_trade, add_tracker, init, dictSet, dictGet])
  norm_num at h
  convert h using 2

/-- Claim C6 as stated is false: with `new_trade` set and zero registered
windows (reachable by a `store_trade` before any `add_tracker`), the
recompute loop body never runs, so `self.new_trade = False` is never
executed and the dirty flag stays true after the call. -/
theorem C6_counterexample :
    run_calculations (store_trade init ⟨100, 1, 1, "1"⟩) =
        Except.ok (store_trade init ⟨100, 1, 1, "1"⟩) ∧
    (store_trade init ⟨100, 1, 1, "1"⟩).new_trade = true := by
  constructor <;> norm_num [run_calculations, runCalcList, store_trade, init]

/-- Claim C6, amended: provided at least one window is registered and
every window's trade list is non-empty, `run_calculations` succeeds, a
second call with no intervening insert or expiry returns the very same
state (so aggregates are identical), the dirty flag is false after the
first call (hence after both), and when the flag was already false the
call is a no-op. -/
theorem C6_recompute_idempotent (rt : RecentTrades)
    (hne : rt.recent_trades ≠ [])
    (hnon : ∀ p ∈ rt.recent_trades, p.2.trades ≠ []) :
    ∃ rt2, run_calculations rt = Except.ok rt2 ∧
      run_calculations rt2 = Except.ok rt2 ∧
      rt2.new_trade = false ∧
      (rt.new_trade = false → rt2 = rt) := by
  have hemp : rt.recent_trades.isEmpty = false := by
    cases hl : rt.recent_trades with
    | nil => exact absurd hl hne
    | cons p rest => rfl
  cases hnt : rt.new_trade with
  | false =>
    refine ⟨rt, ?_, ?_, hnt, fun _ => rfl⟩ <;> simp [run_calculations, hnt]
  | true =>
    obtain ⟨l2, hl2⟩ := runCalcList_ok_of_nonempty hnon
    refine ⟨{ rt with recent_trades := l2, new_trade := false }, ?_, ?_, rfl, ?_⟩
    · simp [run_calculations, hnt, hl2, hemp]
    · simp [run_calculations]
    · intro hfalse
      exact Bool.noConfusion hfalse

/-- Witness for the amended C6: one window with one trade and the dirty
flag set; the recompute succeeds, clears the flag, and is idempotent. -/
theorem C6_recompute_idempotent_witness :
    ∃ rt2,
      run_calculations (store_trade (add_tracker init "W" 900) ⟨100, 1, 10, "10"⟩) =
          Except.ok rt2 ∧
      run_calculations rt2 = Except.ok rt2 ∧
      rt2.new_trade = false ∧
      ((store_trade (add_tracker init "W" 900) ⟨100, 1, 10, "10"⟩).new_trade = false →
        rt2 = store_trade (add_tracker init "W" 900) ⟨100, 1, 10, "10"⟩) :=
  C6_recompute_idempotent _
    (by norm_num [store_trade, add_tracker, init, dictSet])
    (by norm_num [store_trade, add_tracker, init, dictSet])

lemma dictGet_eq_none_iff (l : List (String × Tracker)) (name : String) :
    dictGet l name = none ↔ name ∉ l.map Prod.fst := by
  induction l with
  | nil => simp [dictGet]
  | cons p rest ih =>
    obtain ⟨k, v⟩ := p
    by_cases hk : k = name
    · subst hk
      simp [dictGet]
    · simp only [dictGet, if_neg hk, List.map_cons, List.mem_cons, ih]
      constructor
      · rintro h2 (h3 | h3)
        · exact hk h3.symm
        · exact h2 h3
      · intro h2 h3
        exact h2 (Or.inr h3)

/-- Claim C7: `store_trade` sets the dirty flag, records the trade's
price string, preserves the window set and order, and appends exactly
that trade at the tail of every registered window's list; each window's
lifetime and cached `volume`, `price_volume`, `average_price` are
untouched and previously stored trades are preserved in place. -/
theorem C7_insert_frame (rt : RecentTrades) (t : Trade) :
    (store_trade rt t).new_trade = true ∧
    (store_trade rt t).price_string = t.price_str ∧
    trackers (store_trade rt t) = trackers rt ∧
    ∀ name w, dictGet rt.recent_trades name = some w →
      dictGet (store_trade rt t).recent_trades name =
        some { w with trades := w.trades ++ [t] } := by
  refine ⟨rfl, rfl, ?_, fun name w h => ?_⟩
  · unfold trackers store_trade
    simp
  · have h2 :
        (store_trade rt t).recent_trades =
          rt.recent_trades.map (fun p => (p.1, { p.2 with trades := p.2.trades ++ [t] })) :=
      rfl
    rw [h2, dictGet_map (fun w => { w with trades := w.trades ++ [t] }), h]
    rfl

/-- Witness for C7 at a concrete state with one window already holding a
trade. -/
theorem C7_insert_frame_witness :
    (store_trade (store_trade (add_tracker init "W" 900) ⟨100, 1, 10, "10"⟩)
          ⟨100, 3, 20, "20"⟩).new_trade = true ∧
    (store_trade (store_trade (add_tracker init "W" 900) ⟨100, 1, 10, "10"⟩)
          ⟨100, 3, 20, "20"⟩).price_string = "20" ∧
    trackers
        (store_trade (store_trade (add_tracker init "W" 900) ⟨100, 1, 10, "10"⟩)
          ⟨100, 3, 20, "20"⟩) =
      trackers (store_trade (add_tracker init "W" 900) ⟨100, 1, 10, "10"⟩) ∧
    dictGet
        (store_trade (store_trade (add_tracker init "W" 900) ⟨100, 1, 10, "10"⟩)
          ⟨100, 3, 20, "20"⟩).recent_trades "W" =
      some
        { lifetime := 900
          trades := [⟨100, 1, 10, "10"⟩, ⟨100, 3, 20, "20"⟩]
          volume := 0
          price_volume := 0
          average_price := 0 } :=
  ⟨(C7_insert_frame (store_trade (add_tracker init "W" 900) ⟨100, 1, 10, "10"⟩)
      ⟨100, 3, 20, "20"⟩).1,
    (C7_insert_frame (store_trade (add_tracker init "W" 900) ⟨100, 1, 10, "10"⟩)
      ⟨100, 3, 20, "20"⟩).2.1,
    (C7_insert_frame (store_trade (add_tracker init "W" 900) ⟨100, 1, 10, "10"⟩)
      ⟨100, 3, 20, "20"⟩).2.2.1,
    (C7_insert_frame (store_trade (add_tracker init "W" 900) ⟨100, 1, 10, "10"⟩)
      ⟨100, 3, 20, "20"⟩).2.2.2 "W"
      ⟨900, [⟨100, 1, 10, "10"⟩], 0, 0, 0⟩
      (by norm_num [store_trade, add_tracker, init, dictSet, dictGet])⟩

/-- Claim C8: every getter and setter that references an unregistered
window name fails (`none` models the `KeyError` raised by the dict lookup
before any mutation happens, so the state is unchanged), and on a
registered name all of them succeed. -/
theorem C8_unknown_name_errors (rt : RecentTrades) (name : String) :
    (name ∉ trackers rt →
      lifetime_get rt name = none ∧ trades_get rt name = none ∧
      volume_get rt name = none ∧ price_volume_get rt name = none ∧
      average_price_get rt name = none ∧
      (∀ l, trades_set rt name l = none) ∧
      (∀ t, trades_append rt name t = none) ∧
      (∀ v, volume_set rt name v = none) ∧
      (∀ v, price_volume_set rt name v = none) ∧
      (∀ p, average_price_set rt name p = none)) ∧
    (name ∈ trackers rt →
      (lifetime_get rt name).isSome = true ∧ (trades_get rt name).isSome = true ∧
      (volume_get rt name).isSome = true ∧ (price_volume_get rt name).isSome = true ∧
      (average_price_get rt name).isSome = true ∧
      (∀ l, (trades_set rt name l).isSome = true) ∧
      (∀ t, (trades_append rt name t).isSome = true) ∧
      (∀ v, (volume_set rt name v).isSome = true) ∧
      (∀ v, (price_volume_set rt name v).isSome = true) ∧
      (∀ p, (average_price_set rt name p).isSome = true)) := by
  constructor
  · intro h
    have hg : dictGet rt.recent_trades name = none :=
      (dictGet_eq_none_iff rt.recent_trades name).mpr h
    refine ⟨?_, ?_, ?_, ?_, ?_, fun l => ?_, fun t => ?_, fun v => ?_, fun v => ?_, fun p => ?_⟩ <;>
      simp [lifetime_get, trades_get, volume_get, price_volume_get, average_price_get,
        trades_set, trades_append, volume_set, price_volume_set, average_price_set, hg]
  · intro h
    cases hg : dictGet rt.recent_trades name with
    | none =>
      have h2 : name ∉ rt.recent_trades.map Prod.fst :=
        (dictGet_eq_none_iff rt.recent_trades name).mp hg
      exact absurd h h2
    | some w =>
      refine ⟨?_, ?_, ?_, ?_, ?_, fun l => ?_, fun t => ?_, fun v => ?_, fun v => ?_, fun p => ?_⟩ <;>
        simp [lifetime_get, trades_get, volume_get, price_volume_get, average_price_get,
          trades_set, trades_append, volume_set, price_volume_set, average_price_set, hg]

/-- Witness for C8: with only `"A"` registered, all accesses to `"B"`
fail and all accesses to `"A"` succeed. -/
theorem C8_unknown_name_errors_witness :
    (lifetime_get (add_tracker init "A" 10) "B" = none ∧
      trades_get (add_tracker init "A" 10) "B" = none ∧
      volume_get (add_tracker init "A" 10) "B" = none ∧
      price_volume_get (add_tracker init "A" 10) "B" = none ∧
      average_price_get (add_tracker init "A" 10) "B" = none ∧
      (∀ l, trades_set (add_tracker init "A" 10) "B" l = none) ∧
      (∀ t, trades_append (add_tracker init "A" 10) "B" t = none) ∧
      (∀ v, volume_set (add_tracker init "A" 10) "B" v = none) ∧
      (∀ v, price_volume_set (add_tracker init "A" 10) "B" v = none) ∧
      (∀ p, average_price_set (add_tracker init "A" 10) "B" p = none)) ∧
    ((lifetime_get (add_tracker init "A" 10) "A").isSome = true ∧
      (trades_get (add_tracker init "A" 10) "A").isSome = true ∧
      (volume_get (add_tracker init "A" 10) "A").isSome = true ∧
      (price_volume_get (add_tracker init "A" 10) "A").isSome = true ∧
      (average_price_get (add_tracker init "A" 10) "A").isSome = true ∧
      (∀ l, (trades_set (add_tracker init "A" 10) "A" l).isSome = true) ∧
      (∀ t, (trades_append (add_tracker init "A" 10) "A" t).isSome = true) ∧
      (∀ v, (volume_set (add_tracker init "A" 10) "A" v).isSome = true) ∧
      (∀ v, (price_volume_set (add_tracker init "A" 10) "A" v).isSome = true) ∧
      (∀ p, (average_price_set (add_tracker init "A" 10) "A" p).isSome = true)) :=
  ⟨(C8_unknown_name_errors (add_tracker init "A" 10) "B").1 (by decide),
    (C8_unknown_name_errors (add_tracker init "A" 10) "A").2 (by decide)⟩

/-! ## Operation traces (for the `initial_value` invariant) -/

/-- The operations the program performs on a `RecentTrades` instance:
startup registration, trade ingest, a cleanup-thread pass, and the main
loop's recompute. -/
inductive Op where
  | addTracker (name : String) (R : ℚ)
  | storeTrade (t : Trade)
  | expire (t : ℚ)
  | runCalc
deriving DecidableEq, Repr

/-- Whether an operation is a `store_trade` call. -/
def isStoreTrade : Op → Bool
  | Op.storeTrade _ => true
  | _ => false

/-- One operation applied to a state; a `run_calculations` that raises
(its `ZeroDivisionError`) crashes the program, so it yields no successor
state. -/
def step (rt : RecentTrades) : Op → Option RecentTrades
  | Op.addTracker name R => some (add_tracker rt name R)
  | Op.storeTrade t => some (store_trade rt t)
  | Op.expire t => some (remove_old_trades_pass rt t)
  | Op.runCalc => (run_calculations rt).toOption

/-- A whole trace of operations from a state. -/
def runOps : RecentTrades → List Op → Option RecentTrades
  | rt, [] => some rt
  | rt, op :: ops =>
    match step rt op with
    | none => none
    | some rt2 => runOps rt2 ops

/-- State predicate: no trade has ever been stored. -/
def NoTradeYet (rt : RecentTrades) : Prop :=
  rt.initial_value = false ∧ rt.new_trade = false ∧ rt.price_string = "0" ∧
    ∀ p ∈ rt.recent_trades,
      p.2.trades = [] ∧ p.2.volume = 0 ∧ p.2.price_volume = 0 ∧ p.2.average_price = 0

lemma noTradeYet_init : NoTradeYet init := by
  refine ⟨rfl, rfl, rfl, ?_⟩
  intro p hp
  simp [init] at hp

lemma mem_dictSet {l : List (String × Tracker)} {name : String} {v : Tracker}
    {p : String × Tracker} (h : p ∈ dictSet l name v) : p ∈ l ∨ p = (name, v) := by
  induction l with
  | nil =>
    simp [dictSet] at h
    exact Or.inr h
  | cons q rest ih =>
    obtain ⟨k, w⟩ := q
    by_cases hk : k = name
    · subst hk
      simp only [dictSet, if_pos rfl] at h
      rcases List.mem_cons.mp h with h2 | h2
      · exact Or.inr h2
      · exact Or.inl (List.mem_cons_of_mem _ h2)
    · simp only [dictSet, if_neg hk] at h
      rcases List.mem_cons.mp h with h2 | h2
      · exact Or.inl (h2 ▸ List.mem_cons_self _ _)
      · rcases ih h2 with h3 | h3
        · exact Or.inl (List.mem_cons_of_mem _ h3)
        · exact Or.inr h3

lemma noTradeYet_add_tracker {rt : RecentTrades} (h : NoTradeYet rt)
    (name : String) (R : ℚ) : NoTradeYet (add_tracker rt name R) := by
  obtain ⟨h1, h2, h3, h4⟩ := h
  refine ⟨h1, h2, h3, ?_⟩
  intro p hp
  rcases mem_dictSet hp with h5 | h5
  · exact h4 p h5
  · subst h5
    exact ⟨rfl, rfl, rfl, rfl⟩

lemma noTradeYet_expire {rt : RecentTrades} (h : NoTradeYet rt) (t : ℚ) :
    NoTradeYet (remove_old_trades_pass rt t) := by
  obtain ⟨h1, h2, h3, h4⟩ := h
  refine ⟨h1, ?_, h3, ?_⟩
  · show (rt.new_trade || _) = false
    rw [h2]
    rw [Bool.false_or]
    rw [List.any_eq_false]
    intro p hp
    have h5 := (h4 p hp).1
    simp [expireTracker, h5]
  · intro p hp
    simp only [remove_old_trades_pass, List.mem_map] at hp
    obtain ⟨q, hq, hq2⟩ := hp
    obtain ⟨hq4, hq5, hq6, hq7⟩ := h4 q hq
    subst hq2
    constructor
    · simp [expireTracker, hq4]
    · exact ⟨hq5, hq6, hq7⟩

lemma run_calculations_of_clean {rt : RecentTrades} (h : rt.new_trade = false) :
    run_calculations rt = Except.ok rt := by
  simp [run_calculations, h]

lemma noTradeYet_step {rt rt2 : RecentTrades} {op : Op}
    (hs : step rt op = some rt2) (hns : isStoreTrade op = false)
    (h : NoTradeYet rt) : NoTradeYet rt2 := by
  cases op with
  | addTracker name R =>
    cases hs
    exact noTradeYet_add_tracker h name R
  | storeTrade t => exact absurd hns (by simp [isStoreTrade])
  | expire t =>
    cases hs
    exact noTradeYet_expire h t
  | runCalc =>
    have h2 : step rt Op.runCalc = some rt := by
      simp [step, run_calculations_of_clean h.2.1, Except.toOption]
    rw [h2] at hs
    cases hs
    exact h

lemma noTradeYet_runOps :
    ∀ {ops : List Op} {rt rt2 : RecentTrades}, runOps rt ops = some rt2 →
      ops.any isStoreTrade = false → NoTradeYet rt → NoTradeYet rt2 := by
  intro ops
  induction ops with
  | nil =>
    intro rt rt2 h _ h3
    cases h
    exact h3
  | cons op rest ih =>
    intro rt rt2 h h2 h3
    simp only [List.any_cons, Bool.or_eq_false_iff] at h2
    cases hs : step rt op with
    | none => simp [runOps, hs] at h
    | some rt3 =>
      simp only [runOps, hs] at h
      exact ih h h2.2 (noTradeYet_step hs h2.1 h3)

lemma initial_value_step_mono {rt rt2 : RecentTrades} {op : Op}
    (hs : step rt op = some rt2) (h : rt.initial_value = true) :
    rt2.initial_value = true := by
  cases op with
  | addTracker name R =>
    cases hs
    exact h
  | storeTrade t =>
    cases hs
    rfl
  | expire t =>
    cases hs
    exact h
  | runCalc =>
    simp only [step] at hs
    cases hrc : run_calculations rt with
    | error e => simp [hrc, Except.toOption] at hs
    | ok rt3 =>
      rw [hrc] at hs
      simp only [Except.toOption, Option.some_inj] at hs
      subst hs
      unfold run_calculations at hrc
      by_cases hnt : rt.new_trade = true
      · rw [if_pos hnt] at hrc
        cases h2 : runCalcList rt.recent_trades with
        | error e => rw [h2] at hrc; exact Except.noConfusion hrc
        | ok l2 =>
          rw [h2] at hrc
          cases hrc
          exact h
      · rw [if_neg hnt] at hrc
        cases hrc
        exact h

lemma initial_value_runOps_mono :
    ∀ {ops : List Op} {rt rt2 : RecentTrades}, runOps rt ops = some rt2 →
      rt.initial_value = true → rt2.initial_value = true := by
  intro ops
  induction ops with
  | nil =>
    intro rt rt2 h h2
    cases h
    exact h2
  | cons op rest ih =>
    intro rt rt2 h h2
    cases hs : step rt op with
    | none => simp [runOps, hs] at h
    | some rt3 =>
      simp only [runOps, hs] at h
      exact ih h (initial_value_step_mono hs h2)

lemma initial_value_of_store_in_ops :
    ∀ {ops : List Op} {rt rt2 : RecentTrades}, runOps rt ops = some rt2 →
      ops.any isStoreTrade = true → rt2.initial_value = true := by
  intro ops
  induction ops with
  | nil =>
    intro rt rt2 _ h2
    simp at h2
  | cons op rest ih =>
    intro rt rt2 h h2
    cases hs : step rt op with
    | none => simp [runOps, hs] at h
    | some rt3 =>
      simp only [runOps, hs] at h
      cases hop : isStoreTrade op with
      | true =>
        cases op with
        | storeTrade t =>
          have h3 : rt3.initial_value = true := by
            cases hs
            rfl
          exact initial_value_runOps_mono h h3
        | addTracker name R => exact absurd hop (by simp [isStoreTrade])
        | expire t => exact absurd hop (by simp [isStoreTrade])
        | runCalc => exact absurd hop (by simp [isStoreTrade])
      | false =>
        simp only [List.any_cons, hop, Bool.false_or] at h2
        exact ih h h2

/-- Claim C10: `initial_value` is false at construction and, along any
trace of operations from a fresh instance, is true at the end exactly
when the trace contains a `store_trade`; no later operation resets it.
Before the first `store_trade`, `price()` is the string `"0"` and every
registered window's `volume`, `price_volume` and `average_price` are `0`. -/
theorem C10_initial_value_flag (ops : List Op) (rt2 : RecentTrades)
    (h : runOps init ops = some rt2) :
    init.initial_value = false ∧
    (rt2.initial_value = true ↔ ops.any isStoreTrade = true) ∧
    (ops.any isStoreTrade = false →
      price rt2 = "0" ∧
      ∀ p ∈ rt2.recent_trades,
        p.2.volume = 0 ∧ p.2.price_volume = 0 ∧ p.2.average_price = 0) := by
  have hclean : ops.any isStoreTrade = false →
      NoTradeYet rt2 :=
    fun h2 => noTradeYet_runOps h h2 noTradeYet_init
  refine ⟨rfl, ⟨?_, fun h2 => initial_value_of_store_in_ops h h2⟩, fun h2 => ?_⟩
  · intro h2
    cases hany : ops.any isStoreTrade with
    | true => rfl
    | false =>
      have h3 := (hclean hany).1
      rw [h2] at h3
      exact Bool.noConfusion h3
  · obtain ⟨_, _, h3, h4⟩ := hclean h2
    exact ⟨h3, fun p hp => ⟨(h4 p hp).2.1, (h4 p hp).2.2.1, (h4 p hp).2.2.2⟩⟩

/-- Witness for C10: a concrete trace — register two windows, run an
expiry pass and a recompute, then store one trade — ends with
`initial_value` true; and its store-free prefix keeps the all-zero
display state. -/
theorem C10_initial_value_flag_witness :
    init.initial_value = false ∧
    ((store_trade (add_tracker (add_tracker init "15 Min" 900) "1 Hour" 3600)
          ⟨100, 2, 5, "5.00"⟩).initial_value = true ↔
      ([Op.addTracker "15 Min" 900, Op.addTracker "1 Hour" 3600, Op.expire 50,
          Op.runCalc, Op.storeTrade ⟨100, 2, 5, "5.00"⟩].any isStoreTrade = true)) ∧
    (([Op.addTracker "15 Min" 900, Op.addTracker "1 Hour" 3600, Op.expire 50,
          Op.runCalc, Op.storeTrade ⟨100, 2, 5, "5.00"⟩].any isStoreTrade = false) →
      price (store_trade (add_tracker (add_tracker init "15 Min" 900) "1 Hour" 3600)
          ⟨100, 2, 5, "5.00"⟩) = "0" ∧
      ∀ p ∈ (store_trade (add_tracker (add_tracker init "15 Min" 900) "1 Hour" 3600)
          ⟨100, 2, 5, "5.00"⟩).recent_trades,
        p.2.volume = 0 ∧ p.2.price_volume = 0 ∧ p.2.average_price = 0) := by
  have h :=
    C10_initial_value_flag
      [Op.addTracker "15 Min" 900, Op.addTracker "1 Hour" 3600, Op.expire 50,
        Op.runCalc, Op.storeTrade ⟨100, 2, 5, "5.00"⟩]
      (store_trade (add_tracker (add_tracker init "15 Min" 900) "1 Hour" 3600)
        ⟨100, 2, 5, "5.00"⟩)
      (by rfl)
  exact h
